import Mathlib

/-!
Shallow embedding of the nutrition-tracker web service core
(`src/server.js`, primary variant, plus the `src/unnamed/part_001` variant
where a claim cites it): the nutrient resolver (`getNutritionData`), the
quantity normalizer (unit → multiplier table and two-decimal rounding), the
`POST /api/food-log` handler and the `GET /api/daily-summary` aggregation.

Numbers are modelled as rationals (exact semantics of the JS arithmetic the
code performs); JSON request values carry JavaScript truthiness and
`parseFloat` coercion.
-/

namespace NutritionTracker

/-- A JSON value as it may arrive in a request body field (`req.body`).
JSON has no NaN/undefined, so numbers are plain rationals; an absent field
is modelled by `null`. -/
inductive JsonVal where
  | num (q : ℚ)
  | str (s : String)
  | null
  | bool (b : Bool)
deriving DecidableEq

/-- JavaScript truthiness of a request value: `0`, `""`, `null`, `false`
are falsy (used by the handler's `if (!food_name || !quantity || !unit)`). -/
def truthy : JsonVal → Bool
  | .num q => decide (q ≠ 0)
  | .str s => decide (s ≠ "")
  | .null => false
  | .bool b => b

/-- Digits to a natural number, most significant first. -/
def natOfDigits (cs : List Char) : Nat :=
  cs.foldl (fun a c => a * 10 + (c.toNat - 48)) 0

/-- Models JS `parseFloat` on a string: parse the longest leading
`[sign] digits [. digits]` prefix; `none` models NaN (no numeric prefix).
Exponents and special forms, unused by this service's inputs, are omitted. -/
def parseFloatQ (s : String) : Option ℚ :=
  let cs := s.toList
  let sc : ℚ × List Char :=
    match cs with
    | '-' :: r => (-1, r)
    | '+' :: r => (1, r)
    | r => (1, r)
  let intPart := sc.2.takeWhile Char.isDigit
  let rest := sc.2.drop intPart.length
  let fracPart :=
    match rest with
    | '.' :: r => r.takeWhile Char.isDigit
    | _ => []
  if intPart = [] ∧ fracPart = [] then none
  else some (sc.1 * ((natOfDigits intPart : ℚ) +
    (natOfDigits fracPart : ℚ) / (10 ^ fracPart.length)))

/-- `parseFloat(quantity) || 0` (server.js:177): a number passes through,
a string is parsed, NaN (and every other non-numeric coercion) becomes 0. -/
def jsQty : JsonVal → ℚ
  | .num q => q
  | .str s => (parseFloatQ s).getD 0
  | .null => 0
  | .bool _ => 0

/-- ASCII lower-casing of one character (the effect of
`String.prototype.toLowerCase` on the ASCII unit tokens the code handles). -/
def lowerChar (c : Char) : Char :=
  if 65 ≤ c.toNat ∧ c.toNat ≤ 90 then Char.ofNat (c.toNat + 32) else c

/-- `unit.toLowerCase()` as a character list. -/
def lowerOf (s : String) : List Char := s.toList.map lowerChar

/-- `unit.toLowerCase().includes(pat)`: `pat` occurs as a contiguous
substring of the lower-cased unit token. -/
def unitHas (unit pat : String) : Bool :=
  (lowerOf unit).tails.any (fun t => pat.toList.isPrefixOf t)

/-- `unit.toLowerCase() === w`. -/
def unitIs (unit w : String) : Bool :=
  lowerOf unit == w.toList

/-- The unit → scale-factor table of server.js:176-196 (`let multiplier`),
branch for branch in source order.  Constants: 28.35 = 2835/100 and
453.592 = 453592/1000 as in the source. -/
def multiplier (qty : ℚ) (unit : String) : ℚ :=
  if unitHas unit "g" || unitIs unit "grams" then qty / 100
  else if unitHas unit "kg" || unitIs unit "kilograms" then qty * 1000 / 100
  else if unitHas unit "oz" || unitIs unit "ounces" then qty * (2835 / 100) / 100
  else if unitHas unit "lb" || unitIs unit "pounds" then qty * (453592 / 1000) / 100
  else qty

/-- Exact semantics of `parseFloat(x.toFixed(2))` (server.js:200-203):
ECMAScript `toFixed(2)` picks the integer n with n/100 closest to x, ties
to the larger n, i.e. n = ⌊100·x + 1/2⌋; `parseFloat` then reads it back. -/
def jsToFixed2 (x : ℚ) : ℚ := (⌊100 * x + 1 / 2⌋ : ℚ) / 100

/-- The spec's rounding: to 2 decimal places, round half AWAY FROM ZERO. -/
def round2away (x : ℚ) : ℚ :=
  if 0 ≤ x then (⌊100 * x + 1 / 2⌋ : ℚ) / 100
  else -((⌊100 * (-x) + 1 / 2⌋ : ℚ) / 100)

/-- A per-100g nutrient vector (`nutritionPer100g`, server.js:168-173). -/
structure Per100 where
  calories : ℚ
  protein : ℚ
  carbs : ℚ
  fat : ℚ
deriving DecidableEq

/-- Element-wise scaling of a per-100g vector by the multiplier, the
unrounded intermediate `nutritionPer100g.x * multiplier` of server.js:200-203. -/
def scaleRaw (p : Per100) (m : ℚ) : Per100 :=
  ⟨p.calories * m, p.protein * m, p.carbs * m, p.fat * m⟩

/-- Scalar multiple of a vector (used to state linearity claims). -/
def Per100.scale (c : ℚ) (p : Per100) : Per100 :=
  ⟨c * p.calories, c * p.protein, c * p.carbs, c * p.fat⟩

/-- Two-decimal rounding applied to each component (server.js:199-204). -/
def mapRound (p : Per100) : Per100 :=
  ⟨jsToFixed2 p.calories, jsToFixed2 p.protein, jsToFixed2 p.carbs, jsToFixed2 p.fat⟩

/-- The quantity normalizer of server.js:176-204: compute the multiplier for
(quantity, unit), scale the per-100g vector element-wise, round each
component to 2 decimals (`parseFloat((v * multiplier).toFixed(2))`). -/
def normalize (p : Per100) (qty : ℚ) (unit : String) : Per100 :=
  mapRound (scaleRaw p (multiplier qty unit))

/-- A candidate product returned by the Open Food Facts search
(`searchResponse.data.products[i]`): a display name and a sparse nutrient
map (`nutriments`), modelled as an association list of numeric fields.
A missing `nutriments` object and an empty one behave identically in the
code (`product.nutriments && Object.keys(product.nutriments).length > 0`),
so both are the empty list. -/
structure Product where
  product_name : String
  nutriments : List (String × ℚ)
deriving DecidableEq

/-- Outcome of the `axios.get` search call in `getNutritionData`
(server.js:135-148): either the request threw (network error / timeout,
landing in the `catch`), or a response whose `data.products` field is
absent (`none`) or a list of candidates. -/
inductive LookupResult where
  | fetchError
  | ok (products : Option (List Product))
deriving DecidableEq

/-- `nutriments[key]`: `none` models JS `undefined` for an absent field. -/
def lookupOpt (nm : List (String × ℚ)) (key : String) : Option ℚ :=
  (nm.find? (fun p => p.1 == key)).map Prod.snd

/-- JS `a || b` on possibly-undefined numbers: the first operand wins
unless it is undefined or 0 (both falsy). -/
def jsOr (a b : Option ℚ) : Option ℚ :=
  match a with
  | some q => if q = 0 then b else some q
  | none => b

/-- JS `a || 0` on a possibly-undefined number. -/
def jsOrZero (a : Option ℚ) : ℚ :=
  match a with
  | some q => if q = 0 then 0 else q
  | none => 0

/-- The per-100g extraction of server.js:168-173, e.g.
`nutriments['energy-kcal_100g'] || nutriments['energy-kcal'] || 0`. -/
def nutritionPer100g (nm : List (String × ℚ)) : Per100 :=
  ⟨jsOrZero (jsOr (lookupOpt nm "energy-kcal_100g") (lookupOpt nm "energy-kcal")),
   jsOrZero (jsOr (lookupOpt nm "proteins_100g") (lookupOpt nm "proteins")),
   jsOrZero (jsOr (lookupOpt nm "carbohydrates_100g") (lookupOpt nm "carbohydrates")),
   jsOrZero (jsOr (lookupOpt nm "fat_100g") (lookupOpt nm "fat"))⟩

/-- The candidate-selection loop of server.js:151-157: walk the products in
order, break at the first whose nutrient map is non-empty. -/
def selectProduct : List Product → Option Product
  | [] => none
  | p :: rest => if 0 < p.nutriments.length then some p else selectProduct rest

/-- The resolver's result as stored per nutrient column: `none` models SQL
NULL (failed resolution), `some` a computed number. -/
structure Nutrition where
  calories : Option ℚ
  protein : Option ℚ
  carbs : Option ℚ
  fat : Option ℚ
deriving DecidableEq

/-- `{ calories: null, protein: null, carbs: null, fat: null }`. -/
def nullNutrition : Nutrition := ⟨none, none, none, none⟩

/-- `getNutritionData(foodName, quantity, unit)` of server.js:130-214, as a
function of the outcome of its one network call.  Every failure mode
(caught error, missing/empty product list, no candidate with nutrient
data) returns the all-null record; otherwise the selected candidate's
per-100g vector is normalized by (quantity, unit). -/
def getNutritionData (lk : LookupResult) (quantity : JsonVal) (unit : String) : Nutrition :=
  match lk with
  | .fetchError => nullNutrition
  | .ok none => nullNutrition
  | .ok (some products) =>
    if products.isEmpty then nullNutrition
    else
      match selectProduct products with
      | none => nullNutrition
      | some p =>
        let r := normalize (nutritionPer100g p.nutriments) (jsQty quantity) unit
        ⟨some r.calories, some r.protein, some r.carbs, some r.fat⟩

/-- The body of a `POST /api/food-log` request (server.js:218); `food_name`
and `unit` are strings in every scenario the claims exercise, `quantity`
may be any JSON value. -/
structure LogRequest where
  food_name : String
  quantity : JsonVal
  unit : String
deriving DecidableEq

/-- A row of the `food_logs` table as written by the INSERT of
server.js:230-233 (the columns the handler supplies). -/
structure Entry where
  food_name : String
  quantity : JsonVal
  unit : String
  calories : Option ℚ
  protein : Option ℚ
  carbs : Option ℚ
  fat : Option ℚ
deriving DecidableEq

/-- Observable outcome of one `POST /api/food-log` request: HTTP status,
whether the external lookup call was issued, and the row inserted (if any). -/
structure PostResult where
  status : Nat
  lookedUp : Bool
  stored : Option Entry
deriving DecidableEq

/-- The `POST /api/food-log` handler (server.js:217-243): truthiness
validation of the three fields, then the lookup, then the INSERT.  `dbOk`
models whether `runExecute` resolves (its rejection is the 500 path, which
happens after the lookup already ran). -/
def postFoodLog (req : LogRequest) (lk : LookupResult) (dbOk : Bool) : PostResult :=
  if !truthy (.str req.food_name) || !truthy req.quantity || !truthy (.str req.unit) then
    ⟨400, false, none⟩
  else
    let nut := getNutritionData lk req.quantity req.unit
    if dbOk then
      ⟨201, true, some ⟨req.food_name, req.quantity, req.unit,
        nut.calories, nut.protein, nut.carbs, nut.fat⟩⟩
    else ⟨500, true, none⟩

/-- SQL `SUM(col)` over the selected rows: NULLs are skipped and the result
is itself NULL when no non-NULL value exists (in particular over zero rows). -/
def sqlSum (vals : List (Option ℚ)) : Option ℚ :=
  let xs := vals.filterMap id
  if xs.isEmpty then none else some (xs.foldl (· + ·) 0)

/-- The JSON object built by `GET /api/daily-summary` (server.js:256-282):
the aggregate row of the SUM/COUNT query plus the day's entry list. -/
structure DailySummary where
  total_calories : Option ℚ
  total_protein : Option ℚ
  total_carbs : Option ℚ
  total_fat : Option ℚ
  food_count : Nat
  foods : List Entry
deriving DecidableEq

/-- The aggregation of `GET /api/daily-summary` (server.js:259-277) applied
to the rows whose `date` column matches the requested day, given
most-recent-first as the SQL queries order them. -/
def dailySummary (rows : List Entry) : DailySummary :=
  ⟨sqlSum (rows.map (·.calories)), sqlSum (rows.map (·.protein)),
   sqlSum (rows.map (·.carbs)), sqlSum (rows.map (·.fat)),
   rows.length, rows⟩

/-- The `GET /api/daily-summary` route (server.js:256-282): a successful
query answers 200 with the summary; a storage failure is the 500 path. -/
def getDailySummaryRoute (dbOk : Bool) (rows : List Entry) : Nat × Option DailySummary :=
  if dbOk then (200, some (dailySummary rows)) else (500, none)

/-- A `food_logs` row of the second service variant (server.js:374-396),
which carries seven nutrient columns. -/
structure EntryV2 where
  calories : Option ℚ
  protein : Option ℚ
  carbs : Option ℚ
  fat : Option ℚ
  fiber : Option ℚ
  sugar : Option ℚ
  sodium : Option ℚ
deriving DecidableEq

/-- `Math.round(x * 10) / 10` (one decimal, ties toward +∞), as used by the
second variant's summary (server.js:568-574). -/
def round1 (x : ℚ) : ℚ := (⌊10 * x + 1 / 2⌋ : ℚ) / 10

/-- The summary object of the second variant's `GET /api/daily-summary`
(server.js:539-585): seven totals, each `Math.round((row.total || 0)*10)/10`
— SQL NULL is coalesced to 0 — plus the item count. -/
structure DailySummaryV2 where
  total_items : Nat
  calories : ℚ
  protein : ℚ
  carbs : ℚ
  fat : ℚ
  fiber : ℚ
  sugar : ℚ
  sodium : ℚ
deriving DecidableEq

/-- The second variant's aggregation (server.js:544-576) over the rows
matching the requested user and date. -/
def dailySummaryV2 (rows : List EntryV2) : DailySummaryV2 :=
  ⟨rows.length,
   round1 ((sqlSum (rows.map (·.calories))).getD 0),
   round1 ((sqlSum (rows.map (·.protein))).getD 0),
   round1 ((sqlSum (rows.map (·.carbs))).getD 0),
   round1 ((sqlSum (rows.map (·.fat))).getD 0),
   round1 ((sqlSum (rows.map (·.fiber))).getD 0),
   round1 ((sqlSum (rows.map (·.sugar))).getD 0),
   round1 ((sqlSum (rows.map (·.sodium))).getD 0)⟩

/-- The `n` helper of src/unnamed/part_001:621: a present numeric field
passes through, an absent one is `undefined` (`none`); the nutrient maps
are numeric-valued, so the `isNaN` arm never fires. -/
def nOf (nm : List (String × ℚ)) (key : String) : Option ℚ := lookupOpt nm key

/-- The `??` chain `n('energy-kcal_100g') ?? n('energy-kcal') ??
n('energy_100g') ?? n('energy')` of part_001:656-659 (nullish coalescing:
only `undefined` falls through, 0 does not). -/
def kcalChain (nm : List (String × ℚ)) : Option ℚ :=
  (nOf nm "energy-kcal_100g").orElse fun _ =>
    (nOf nm "energy-kcal").orElse fun _ =>
      (nOf nm "energy_100g").orElse fun _ => nOf nm "energy"

/-- `n('energy-kj_100g') ?? n('energy-kj')` of part_001:661-662. -/
def kjChain (nm : List (String × ℚ)) : Option ℚ :=
  (nOf nm "energy-kj_100g").orElse fun _ => nOf nm "energy-kj"

/-- The kcal computation of part_001:656-674: the alias chain, then the
kJ fallback (`kcal = kj / 4.184` when kcal is undefined or 0 and a kJ
field exists), then the generic-energy heuristic (`kcal = kcal / 4.184`
when kcal is positive and no kcal-labeled field exists). -/
def kcalP1 (nm : List (String × ℚ)) : Option ℚ :=
  let k0 := kcalChain nm
  let k1 :=
    if (k0 = none ∨ k0 = some 0) ∧ kjChain nm ≠ none then
      (kjChain nm).map (· / (4184 / 1000))
    else k0
  if k1 ≠ none ∧ 0 < k1.getD 0 ∧ nOf nm "energy-kcal_100g" = none ∧
      nOf nm "energy-kcal" = none then
    (k1).map (· / (4184 / 1000))
  else k1

/-- `caloriesPer100` of part_001:677: 0 when undefined after all fallbacks. -/
def caloriesPer100P1 (nm : List (String × ℚ)) : ℚ := (kcalP1 nm).getD 0

/-- The per-100g nutrition record of the second variant's resolver
(server.js:423-431, 445-464): seven numeric fields (that variant's
`getNutritionData` always produces numbers, falling back to defaults). -/
structure NutritionV2 where
  calories : ℚ
  protein : ℚ
  carbs : ℚ
  fat : ℚ
  fiber : ℚ
  sugar : ℚ
  sodium : ℚ
deriving DecidableEq

/-- The second variant's normalizer (server.js:482-491):
`multiplier = quantity / 100` and each component is
`Math.round(value * multiplier * 10) / 10` — rounded to ONE decimal place. -/
def calculatedNutritionV2 (nd : NutritionV2) (quantity : ℚ) : NutritionV2 :=
  ⟨round1 (nd.calories * (quantity / 100)), round1 (nd.protein * (quantity / 100)),
   round1 (nd.carbs * (quantity / 100)), round1 (nd.fat * (quantity / 100)),
   round1 (nd.fiber * (quantity / 100)), round1 (nd.sugar * (quantity / 100)),
   round1 (nd.sodium * (quantity / 100))⟩

/-- Round-half-away-from-zero to ONE decimal place (the spec's rounding
rule stated at the second variant's actual precision). -/
def round1away (x : ℚ) : ℚ :=
  if 0 ≤ x then (⌊10 * x + 1 / 2⌋ : ℚ) / 10
  else -((⌊10 * (-x) + 1 / 2⌋ : ℚ) / 10)

/-- A unit token containing "kg" also contains "g" (substring containment
is transitive through the two-character pattern). -/
theorem unitHas_kg_imp_g (u : String) (h : unitHas u "kg" = true) : unitHas u "g" = true := by
  unfold unitHas at h ⊢
  rw [List.any_eq_true] at h ⊢
  obtain ⟨t, ht, hp⟩ := h
  rw [ List.isPrefixOf_iff_prefix] at hp
  obtain ⟨r, hr⟩ := hp
  have hkg : "kg".toList = 'k' :: 'g' :: [] := rfl
  rw [hkg] at hr
  refine ⟨'g' :: r, ?_, ?_⟩
  · rw [List.mem_tails] at ht ⊢
    refine List.IsSuffix.trans ?_ ht
    rw [← hr]
    exact List.suffix_cons 'k' ('g' :: r)
  · rw [ List.isPrefixOf_iff_prefix]
    exact ⟨r, rfl⟩

/-- When every candidate's nutrient map is empty, the selection loop
exhausts the list without selecting. -/
theorem selectProduct_eq_none (ps : List Product) (h : ∀ p ∈ ps, p.nutriments = []) :
    selectProduct ps = none := by
  induction ps with
  | nil => rfl
  | cons p rest ih =>
    unfold selectProduct
    have hp : p.nutriments = [] := h p (by simp)
    rw [hp]
    simpa using ih (fun x hx => h x (by simp [hx]))

/-- Every failure mode of the lookup (caught error, absent product field,
or no candidate with nutrient data — including the empty list) makes
`getNutritionData` return the all-null record. -/
theorem getNutritionData_failure (lk : LookupResult) (q : JsonVal) (u : String)
    (h : lk = .fetchError ∨ lk = .ok none ∨
      ∃ ps, lk = .ok (some ps) ∧ ∀ p ∈ ps, p.nutriments = []) :
    getNutritionData lk q u = nullNutrition := by
  rcases h with h | h | ⟨ps, h, hall⟩ <;> subst h
  · rfl
  · rfl
  · have hsel := selectProduct_eq_none ps hall
    by_cases he : ps.isEmpty <;> simp [getNutritionData, he, hsel]

/-- The resolver returns either the all-null record or a record with all
four nutrient fields present. -/
theorem getNutritionData_all_or_none (lk : LookupResult) (q : JsonVal) (u : String) :
    getNutritionData lk q u = nullNutrition ∨
    ∃ r : Per100, getNutritionData lk q u =
      ⟨some r.calories, some r.protein, some r.carbs, some r.fat⟩ := by
  unfold getNutritionData
  rcases lk with _ | _ | ps
  · left; rfl
  · left; rfl
  by_cases he : ps.isEmpty
  · left; simp [he]
  cases hs : selectProduct ps with
  | none => left; simp [he, hs]
  | some p =>
    right
    exact ⟨normalize (nutritionPer100g p.nutriments) (jsQty q) u, by simp [he, hs]⟩

/-- Every branch of the unit table scales a zero quantity to a zero
multiplier. -/
theorem multiplier_zero (u : String) : multiplier 0 u = 0 := by
  unfold multiplier
  split_ifs <;> norm_num

/-- Normalizing any per-100g vector at quantity 0 yields the zero vector
(0 rounded to two decimals is 0). -/
theorem normalize_zero_qty (p : Per100) (u : String) : normalize p 0 u = ⟨0, 0, 0, 0⟩ := by
  unfold normalize scaleRaw mapRound
  rw [multiplier_zero]
  have h0 : jsToFixed2 0 = 0 := by norm_num [jsToFixed2]
  simp [h0]

/-- C1: the claim says a unit containing "kg" is scaled by quantity×1000/100
because the "kg" row is matched before the generic "g" row.  The code tests
the "g" substring FIRST, and every token containing "kg" contains "g", so
the kg branch is unreachable and the quantity is scaled by quantity/100
(1 kg is treated as 1 gram).  This theorem evaluates the code's actual
behaviour on every such unit token. -/
theorem C1_kg_unit_scaled_as_grams : ∀ (qty : ℚ) (u : String), unitHas u "kg" = true →
    multiplier qty u = qty / 100 := by
  intro qty u h
  unfold multiplier
  rw [unitHas_kg_imp_g u h]
  simp

/-- C1 witness: the token "kg" itself contains "kg", and 1 kg is scaled by
1/100 — not the 10 the claim states. -/
theorem C1_kg_unit_scaled_as_grams_witness :
    unitHas "kg" "kg" = true ∧ multiplier 1 "kg" = 1 / 100 :=
  ⟨rfl, C1_kg_unit_scaled_as_grams 1 "kg" rfl⟩

/-- C2 counterexample: a request with quantity −5 (negative, which the claim
says is rejected with 400 before any resolution work) instead passes
validation: the lookup call is issued, the status is 201 and a row is
stored. -/
theorem C2_counterexample_negative_quantity_not_rejected :
    (postFoodLog ⟨"apple", .num (-5), "g"⟩ (.ok (some [])) true).status = 201 ∧
    (postFoodLog ⟨"apple", .num (-5), "g"⟩ (.ok (some [])) true).lookedUp = true ∧
    (postFoodLog ⟨"apple", .num (-5), "g"⟩ (.ok (some [])) true).stored ≠ none :=
  ⟨rfl, rfl, by decide⟩

/-- C2 (amended): the handler's validation is JS truthiness only.  A falsy
quantity (0, null, empty string, false) is rejected with 400 before any
lookup or write; but a NEGATIVE quantity is truthy, passes validation, and
the lookup and insert proceed (status 201). -/
theorem C2_falsy_only_validation :
    (∀ (req : LogRequest) (lk : LookupResult) (dbOk : Bool),
        truthy req.quantity = false →
        postFoodLog req lk dbOk = ⟨400, false, none⟩) ∧
    (∀ (fn un : String) (q : ℚ) (lk : LookupResult),
        fn ≠ "" → un ≠ "" → q < 0 →
        (postFoodLog ⟨fn, .num q, un⟩ lk true).lookedUp = true ∧
        (postFoodLog ⟨fn, .num q, un⟩ lk true).status = 201) := by
  constructor
  · intro req lk dbOk h
    unfold postFoodLog
    rw [h]
    simp
  · intro fn un q lk hfn hun hq
    have hq' : truthy (.num q) = true := by simp [truthy]; exact ne_of_lt hq
    have h1 : truthy (.str fn) = true := by simp [truthy, hfn]
    have h2 : truthy (.str un) = true := by simp [truthy, hun]
    unfold postFoodLog
    simp [hq', h1, h2]

/-- C2 witness: quantity 0 is rejected with 400 and no lookup, while
quantity −2 reaches the lookup. -/
theorem C2_falsy_only_validation_witness :
    postFoodLog ⟨"apple", .num 0, "g"⟩ .fetchError true = ⟨400, false, none⟩ ∧
    (postFoodLog ⟨"banana", .num (-2), "g"⟩ .fetchError true).lookedUp = true :=
  ⟨C2_falsy_only_validation.1 _ _ _ rfl,
   (C2_falsy_only_validation.2 "banana" "g" (-2) .fetchError (by decide) (by decide)
     (by norm_num)).1⟩

/-- C3: for every valid request and every failing lookup outcome (network
error/timeout, missing or empty result set, or no candidate carrying
nutrient data), the request still answers 201 and persists an entry whose
four nutrient fields are all null. -/
theorem C3_resolution_failure_still_201_null_entry :
    ∀ (fn un : String) (q : JsonVal) (lk : LookupResult),
      fn ≠ "" → truthy q = true → un ≠ "" →
      (lk = .fetchError ∨ lk = .ok none ∨
        ∃ ps, lk = .ok (some ps) ∧ ∀ p ∈ ps, p.nutriments = []) →
      postFoodLog ⟨fn, q, un⟩ lk true =
        ⟨201, true, some ⟨fn, q, un, none, none, none, none⟩⟩ := by
  intro fn un q lk hfn hq hun hlk
  have h1 : truthy (.str fn) = true := by simp [truthy, hfn]
  have h2 : truthy (.str un) = true := by simp [truthy, hun]
  unfold postFoodLog
  simp [h1, h2, hq, getNutritionData_failure lk q un hlk, nullNutrition]

/-- C3 witness: a network failure while logging 5 g of "apple" still
produces 201 with an all-null-nutrient row. -/
theorem C3_resolution_failure_still_201_null_entry_witness :
    postFoodLog ⟨"apple", .num 5, "g"⟩ .fetchError true =
      ⟨201, true, some ⟨"apple", .num 5, "g", none, none, none, none⟩⟩ :=
  C3_resolution_failure_still_201_null_entry "apple" "g" (.num 5) .fetchError
    (by decide) (by decide) (by decide) (Or.inl rfl)

/-- C4: the selection loop picks the first candidate (in collaborator
order) whose nutrient map is non-empty; with an empty first candidate and
a populated second, the second is selected; and when no candidate
qualifies, resolution fails (the all-null record). -/
theorem C4_first_candidate_with_nutrients_selected :
    (∀ ps : List Product, selectProduct ps = ps.find? (fun p => !p.nutriments.isEmpty)) ∧
    (∀ p₁ p₂ : Product, p₁.nutriments = [] → p₂.nutriments ≠ [] →
      selectProduct [p₁, p₂] = some p₂) ∧
    (∀ (q : JsonVal) (u : String) (ps : List Product),
      (∀ p ∈ ps, p.nutriments = []) →
      getNutritionData (.ok (some ps)) q u = nullNutrition) := by
  refine ⟨?_, ?_, ?_⟩
  · intro ps
    induction ps with
    | nil => rfl
    | cons p rest ih =>
      unfold selectProduct
      rw [List.find?_cons]
      by_cases h : p.nutriments = []
      · simp [h, ih]
      · have h1 : p.nutriments.isEmpty = false := by simp [List.isEmpty_iff, h]
        have h2 : 0 < p.nutriments.length := List.length_pos.mpr h
        simp [h1, h2]
  · intro p₁ p₂ h1 h2
    unfold selectProduct
    rw [h1]
    simp
    unfold selectProduct
    have : 0 < p₂.nutriments.length := List.length_pos.mpr h2
    simp [this]
  · intro q u ps h
    exact getNutritionData_failure _ _ _ (Or.inr (Or.inr ⟨ps, rfl, h⟩))

/-- C4 witness: with a nutrient-less first candidate and a populated
second, the second is selected. -/
theorem C4_first_candidate_with_nutrients_selected_witness :
    selectProduct [⟨"first", []⟩, ⟨"second", [("proteins", 1)]⟩] =
      some ⟨"second", [("proteins", 1)]⟩ :=
  C4_first_candidate_with_nutrients_selected.2.1 _ _ rfl (by decide)

/-- C5: evaluation of the code at the claim's failing input.  With only a
kJ-labeled energy field of 200 and no kcal field, part_001 converts TWICE
(the generic-energy heuristic fires again on the already-converted value),
yielding 200/4.184/4.184 ≈ 11.43 — not the 200/4.184 ≈ 47.8 the claim
states; a generic energy field of 200 is converted once, as claimed; and
the primary server.js variant performs no kJ conversion at all (0). -/
theorem C5_kj_energy_double_division :
    caloriesPer100P1 [("energy-kj_100g", 200)] = 200 / (4184 / 1000) / (4184 / 1000) ∧
    caloriesPer100P1 [("energy-kj_100g", 200)] ≠ 200 / (4184 / 1000) ∧
    caloriesPer100P1 [("energy_100g", 200)] = 200 / (4184 / 1000) ∧
    (nutritionPer100g [("energy-kj_100g", 200)]).calories = 0 := by
  have e1 : kcalChain [("energy-kj_100g", (200 : ℚ))] = none := rfl
  have e2 : kjChain [("energy-kj_100g", (200 : ℚ))] = some 200 := rfl
  have e3 : nOf [("energy-kj_100g", (200 : ℚ))] "energy-kcal_100g" = none := rfl
  have e4 : nOf [("energy-kj_100g", (200 : ℚ))] "energy-kcal" = none := rfl
  have f1 : kcalChain [("energy_100g", (200 : ℚ))] = some 200 := rfl
  have f2 : kjChain [("energy_100g", (200 : ℚ))] = none := rfl
  have f3 : nOf [("energy_100g", (200 : ℚ))] "energy-kcal_100g" = none := rfl
  have f4 : nOf [("energy_100g", (200 : ℚ))] "energy-kcal" = none := rfl
  refine ⟨?_, ?_, ?_, ?_⟩
  · simp [caloriesPer100P1, kcalP1, e1, e2, e3, e4]
  · simp [caloriesPer100P1, kcalP1, e1, e2, e3, e4]
    norm_num
  · simp [caloriesPer100P1, kcalP1, f1, f2, f3, f4]
  · rfl

/-- C6 counterexample: for a day with zero entries the primary
daily-summary's total_calories is SQL NULL (`none`), not the zero the
claim requires. -/
theorem C6_counterexample_null_totals_empty_day :
    (dailySummary []).total_calories = none ∧ (none : Option ℚ) ≠ some 0 :=
  ⟨rfl, by decide⟩

/-- C6 (amended): a day with zero entries is not an error — the primary
route answers 200 with entry count 0 and an empty entry list, but its
per-nutrient totals are null (SUM over no rows); the second variant
coalesces them and reports totals that are all zero. -/
theorem C6_empty_day_summary :
    getDailySummaryRoute true [] = (200, some ⟨none, none, none, none, 0, []⟩) ∧
    dailySummaryV2 [] = ⟨0, 0, 0, 0, 0, 0, 0, 0⟩ := by
  constructor
  · rfl
  · have hs : sqlSum ([] : List (Option ℚ)) = none := rfl
    have hr : round1 0 = 0 := by norm_num [round1]
    simp [dailySummaryV2, hs, hr]

/-- C7: every row a `POST /api/food-log` request stores has its four
nutrient fields either all numeric (successful resolution) or all null
(failed resolution) — never a mix. -/
theorem C7_nutrients_all_or_nothing :
    ∀ (req : LogRequest) (lk : LookupResult) (dbOk : Bool) (e : Entry),
      (postFoodLog req lk dbOk).stored = some e →
      (e.calories = none ∧ e.protein = none ∧ e.carbs = none ∧ e.fat = none) ∨
      (e.calories.isSome = true ∧ e.protein.isSome = true ∧
       e.carbs.isSome = true ∧ e.fat.isSome = true) := by
  intro req lk dbOk e he
  unfold postFoodLog at he
  split at he
  · simp at he
  · split at he
    · rw [Option.some_inj] at he
      rcases getNutritionData_all_or_none lk req.quantity req.unit with hn | ⟨r, hn⟩
      · left
        rw [← he]
        simp [hn, nullNutrition]
      · right
        rw [← he]
        simp [hn]
    · simp at he

/-- C7 witness: the row stored for a failed lookup satisfies the
invariant (all four fields null). -/
theorem C7_nutrients_all_or_nothing_witness :
    (((⟨"apple", .num 1, "g", none, none, none, none⟩ : Entry).calories = none ∧
      (⟨"apple", .num 1, "g", none, none, none, none⟩ : Entry).protein = none ∧
      (⟨"apple", .num 1, "g", none, none, none, none⟩ : Entry).carbs = none ∧
      (⟨"apple", .num 1, "g", none, none, none, none⟩ : Entry).fat = none) ∨
     ((⟨"apple", .num 1, "g", none, none, none, none⟩ : Entry).calories.isSome = true ∧
      (⟨"apple", .num 1, "g", none, none, none, none⟩ : Entry).protein.isSome = true ∧
      (⟨"apple", .num 1, "g", none, none, none, none⟩ : Entry).carbs.isSome = true ∧
      (⟨"apple", .num 1, "g", none, none, none, none⟩ : Entry).fat.isSome = true)) :=
  C7_nutrients_all_or_nothing ⟨"apple", .num 1, "g"⟩ .fetchError true _ rfl

/-- C8 counterexample: with per-100g calories 0.4 and unit "g" (mass-based),
doubling the quantity from 1 to 2 does not double the rounded output:
normalize gives 0.00 at quantity 1 but 0.01 at quantity 2 ≠ 2 × 0.00. -/
theorem C8_counterexample_rounding_breaks_linearity :
    normalize ⟨2/5, 0, 0, 0⟩ 2 "g" ≠ Per100.scale 2 (normalize ⟨2/5, 0, 0, 0⟩ 1 "g") := by
  intro h
  have hc := congrArg Per100.calories h
  have m2 : multiplier 2 "g" = 2 / 100 := rfl
  have m1 : multiplier 1 "g" = 1 / 100 := rfl
  simp only [normalize, mapRound, scaleRaw, Per100.scale, m1, m2, jsToFixed2] at hc
  norm_num at hc

/-- C8 (amended): normalization is deterministic (it is a pure function of
its inputs) and linear in the quantity BEFORE the final two-decimal
rounding: for every unit the multiplier is linear, and the element-wise
scaled (unrounded) vectors satisfy the doubling law exactly; the rounded
outputs can differ by up to 0.01 per field. -/
theorem C8_linear_before_rounding :
    ∀ (p : Per100) (q : ℚ) (u : String),
      multiplier (2 * q) u = 2 * multiplier q u ∧
      scaleRaw p (multiplier (2 * q) u) = Per100.scale 2 (scaleRaw p (multiplier q u)) := by
  intro p q u
  have hm : multiplier (2 * q) u = 2 * multiplier q u := by
    unfold multiplier
    split_ifs <;> ring
  refine ⟨hm, ?_⟩
  rw [hm]
  simp only [scaleRaw, Per100.scale, Per100.mk.injEq]
  refine ⟨by ring, by ring, by ring, by ring⟩

/-- C9 counterexample: the second variant's normalizer (server.js:482-491)
rounds to ONE decimal place, not two: with per-100g calories 1.25 and
quantity 100 (scale factor 1) it outputs 1.3, while rounding 1.25 to
exactly two decimal places half-away-from-zero keeps 1.25. -/
theorem C9_counterexample_v2_rounds_to_one_decimal :
    (calculatedNutritionV2 ⟨5/4, 0, 0, 0, 0, 0, 0⟩ 100).calories = 13/10 ∧
    round2away (5/4 * (100 / 100)) = 5/4 ∧
    (13/10 : ℚ) ≠ 5/4 := by
  refine ⟨?_, ?_, by norm_num⟩
  · norm_num [calculatedNutritionV2, round1]
  · norm_num [round2away]

/-- C9 (amended): the primary normalizer (server.js:198-204) rounds each
element-wise scaled component to TWO decimals via
`parseFloat(x.toFixed(2))`, which on the non-negative values the data
model admits equals round-half-away-from-zero; the second variant's
normalizer (server.js:482-491) scales by quantity/100 and rounds each
component to only ONE decimal via `Math.round(x*10)/10`, again equal to
round-half-away-from-zero (at one-decimal precision) on non-negative
values. -/
theorem C9_amended_two_decimal_primary_one_decimal_v2 :
    (∀ (p : Per100) (m : ℚ),
      0 ≤ p.calories → 0 ≤ p.protein → 0 ≤ p.carbs → 0 ≤ p.fat → 0 ≤ m →
      mapRound (scaleRaw p m) =
        ⟨round2away (p.calories * m), round2away (p.protein * m),
         round2away (p.carbs * m), round2away (p.fat * m)⟩) ∧
    (∀ (nd : NutritionV2) (q : ℚ),
      0 ≤ nd.calories → 0 ≤ nd.protein → 0 ≤ nd.carbs → 0 ≤ nd.fat →
      0 ≤ nd.fiber → 0 ≤ nd.sugar → 0 ≤ nd.sodium → 0 ≤ q →
      calculatedNutritionV2 nd q =
        ⟨round1away (nd.calories * (q / 100)), round1away (nd.protein * (q / 100)),
         round1away (nd.carbs * (q / 100)), round1away (nd.fat * (q / 100)),
         round1away (nd.fiber * (q / 100)), round1away (nd.sugar * (q / 100)),
         round1away (nd.sodium * (q / 100))⟩) := by
  constructor
  · intro p m h1 h2 h3 h4 hm
    have key : ∀ x : ℚ, 0 ≤ x → jsToFixed2 x = round2away x := by
      intro x hx
      unfold jsToFixed2 round2away
      rw [if_pos hx]
    simp only [mapRound, scaleRaw]
    rw [key _ (mul_nonneg h1 hm), key _ (mul_nonneg h2 hm),
        key _ (mul_nonneg h3 hm), key _ (mul_nonneg h4 hm)]
  · intro nd q h1 h2 h3 h4 h5 h6 h7 hq
    have hq' : (0 : ℚ) ≤ q / 100 := by positivity
    have key : ∀ x : ℚ, 0 ≤ x → round1 x = round1away x := by
      intro x hx
      unfold round1 round1away
      rw [if_pos hx]
    simp only [calculatedNutritionV2]
    rw [key _ (mul_nonneg h1 hq'), key _ (mul_nonneg h2 hq'),
        key _ (mul_nonneg h3 hq'), key _ (mul_nonneg h4 hq'),
        key _ (mul_nonneg h5 hq'), key _ (mul_nonneg h6 hq'),
        key _ (mul_nonneg h7 hq')]

/-- C9 witness: the spec's banana vector (89, 1.1, 23, 0.3 per 100g) at
scale factor 1.2 in the primary normalizer, and the same vector at
quantity 120 in the second variant's normalizer. -/
theorem C9_amended_two_decimal_primary_one_decimal_v2_witness :
    mapRound (scaleRaw ⟨89, 11/10, 23, 3/10⟩ (6/5)) =
      ⟨round2away (89 * (6/5)), round2away ((11/10) * (6/5)),
       round2away (23 * (6/5)), round2away ((3/10) * (6/5))⟩ ∧
    calculatedNutritionV2 ⟨89, 11/10, 23, 3/10, 0, 0, 0⟩ 120 =
      ⟨round1away (89 * (120 / 100)), round1away ((11/10) * (120 / 100)),
       round1away (23 * (120 / 100)), round1away ((3/10) * (120 / 100)),
       round1away (0 * (120 / 100)), round1away (0 * (120 / 100)),
       round1away (0 * (120 / 100))⟩ :=
  ⟨C9_amended_two_decimal_primary_one_decimal_v2.1 ⟨89, 11/10, 23, 3/10⟩ (6/5)
     (by norm_num) (by norm_num) (by norm_num) (by norm_num) (by norm_num),
   C9_amended_two_decimal_primary_one_decimal_v2.2 ⟨89, 11/10, 23, 3/10, 0, 0, 0⟩ 120
     (by norm_num) (by norm_num) (by norm_num) (by norm_num) (by norm_num)
     (by norm_num) (by norm_num) (by norm_num)⟩

/-- C10 counterexample: a request with truthy non-numeric quantity "abc"
whose lookup returns an empty candidate list stores NULL nutrient fields,
not the zeros the claim asserts for every such request. -/
theorem C10_counterexample_null_when_lookup_empty :
    (postFoodLog ⟨"apple", .str "abc", "piece"⟩ (.ok (some [])) true).stored =
      some ⟨"apple", .str "abc", "piece", none, none, none, none⟩ ∧
    (some ⟨"apple", .str "abc", "piece", none, none, none, none⟩ : Option Entry) ≠
      some ⟨"apple", .str "abc", "piece", some 0, some 0, some 0, some 0⟩ :=
  ⟨rfl, by decide⟩

/-- C10 (amended): a truthy non-numeric quantity is not rejected — the
lookup runs and the entry is stored with 201; when the lookup selects a
candidate, `parseFloat` yields NaN, `|| 0` coerces the quantity to 0 and
every nutrient field is stored as 0 (when resolution fails instead, the
fields are null). -/
theorem C10_truthy_nonnumeric_coerced_zero :
    ∀ (fn un s : String) (ps : List Product) (p : Product),
      fn ≠ "" → s ≠ "" → un ≠ "" → parseFloatQ s = none →
      selectProduct ps = some p →
      postFoodLog ⟨fn, .str s, un⟩ (.ok (some ps)) true =
        ⟨201, true, some ⟨fn, .str s, un, some 0, some 0, some 0, some 0⟩⟩ := by
  intro fn un s ps p hfn hs hun hparse hsel
  have h1 : truthy (.str fn) = true := by simp [truthy, hfn]
  have h2 : truthy (.str un) = true := by simp [truthy, hun]
  have h3 : truthy (.str s) = true := by simp [truthy, hs]
  have hne : ps.isEmpty = false := by
    cases ps with
    | nil => simp [selectProduct] at hsel
    | cons a l => rfl
  have hq : jsQty (.str s) = 0 := by simp [jsQty, hparse]
  unfold postFoodLog
  simp only [h1, h2, h3, Bool.not_true, Bool.false_or, Bool.or_self, if_false,
    Bool.or_false, if_true]
  unfold getNutritionData
  rw [hq] at *
  simp [hne, hsel, hq, normalize_zero_qty]

/-- C10 witness: quantity "abc" with a populated candidate stores all-zero
nutrients and answers 201. -/
theorem C10_truthy_nonnumeric_coerced_zero_witness :
    postFoodLog ⟨"apple", .str "abc", "piece"⟩
        (.ok (some [⟨"prod", [("proteins", 5)]⟩])) true =
      ⟨201, true, some ⟨"apple", .str "abc", "piece", some 0, some 0, some 0, some 0⟩⟩ :=
  C10_truthy_nonnumeric_coerced_zero "apple" "piece" "abc" _ _ (by decide) (by decide)
    (by decide) rfl rfl

end NutritionTracker
